import Mathlib

/-!
Verification development for the `slide-renderer` repository.

The repository's core is a slide content validation + template rendering
engine (`src/slide_renderer`) and a two-phase plan/generate pipeline
(`src/paper_to_presentation`).  This file shallowly embeds the relevant
Python code:

* pydantic content models become explicit field-spec lists checked by a
  generic validator (`validateFields`), mirroring pydantic v2 semantics:
  required fields, `max_length` on strings measured in characters,
  `min_length`/`max_length` on lists, enum tag membership, extra fields
  silently ignored, and output normalised to declaration order
  (`model_dump`);
* `SlideRenderer.validate_content` / `render` / `render_presentation`
  from `src/slide_renderer/renderer.py`, with the externally supplied
  Jinja2 template directory modelled as a lookup function from slide
  type tag to an opaque template;
* `phase2_generate_slide` / `phase2_generate_all_slides` from
  `src/paper_to_presentation/generator.py`, with the chat-completion
  collaborator modelled as a function from the message list to either an
  error or a parsed JSON object, and `asyncio.gather` modelled as an
  order-preserving collection of per-task outcomes;
* `phase1_plan_presentation`'s validation step from
  `src/paper_to_presentation/planning.py`;
* `convert_figure_ids_to_urls` from `src/paper_to_presentation/utils.py`.
-/

/-- JSON-like values, the shape of content mappings passed to the
pydantic models (`dict` / `str` / `int` / `list` after `json.loads`). -/
inductive Value where
  | str (s : String)
  | int (n : Int)
  | list (items : List Value)
  | obj (fields : List (String × Value))

/-- Kinds of scalar pydantic fields appearing in the repository's models:
a string field with an optional `max_length`, an `int` field, and an
enum-typed field (pydantic validates the raw string against the enum's
values). -/
inductive LeafKind where
  | text (maxLength : Option Nat)
  | intVal
  | enumTag (allowed : List String)

/-- A named scalar field of a nested component model
(`ListItem`, `ImageItem`, `MetricValue`, `MetricWithDescription`,
`SlideOutline`). -/
structure LeafSpec where
  name : String
  kind : LeafKind

/-- Kinds of top-level pydantic fields: a scalar field, or a list of
nested component objects with optional `min_length` / `max_length`
cardinality bounds. -/
inductive FieldKind where
  | leaf (k : LeafKind)
  | listOf (itemSpec : List LeafSpec) (minItems : Option Nat) (maxItems : Option Nat)

/-- A named top-level field of a content model. -/
structure FieldSpec where
  name : String
  kind : FieldKind

/-- Structured validation errors, following the error taxonomy that
pydantic reports for these models: missing required field, string over
`max_length`, list length outside `[min_length, max_length]`, and value
of the wrong shape (including an invalid enum tag). -/
inductive ValErr where
  | missingField (field : String)
  | fieldTooLong (field : String) (limit : Nat) (actual : Nat)
  | cardinalityError (field : String) (minItems : Option Nat) (maxItems : Option Nat)
      (actual : Nat)
  | typeMismatch (field : String)
deriving DecidableEq

/-- Validate one scalar value against its field kind.  String length is
`String.length`, i.e. the number of unicode scalar values, matching
Python's `len` used by pydantic's `max_length`. -/
def checkLeaf (fname : String) (k : LeafKind) (v : Value) : Except ValErr Value :=
  match k, v with
  | .text none, .str s => .ok (.str s)
  | .text (some m), .str s =>
      if s.length ≤ m then .ok (.str s) else .error (.fieldTooLong fname m s.length)
  | .intVal, .int n => .ok (.int n)
  | .enumTag allowed, .str s =>
      if allowed.contains s then .ok (.str s) else .error (.typeMismatch fname)
  | _, _ => .error (.typeMismatch fname)

/-- Validate a nested component object: each declared field must be
present and valid; the normalised output lists exactly the declared
fields in declaration order (pydantic's default `extra` policy ignores
undeclared keys, and `model_dump` emits fields in declaration order). -/
def validateLeafFields : List LeafSpec → List (String × Value) →
    Except ValErr (List (String × Value))
  | [], _ => .ok []
  | f :: rest, content =>
    match content.lookup f.name with
    | none => .error (.missingField f.name)
    | some v =>
      match checkLeaf f.name f.kind v with
      | .error e => .error e
      | .ok v2 =>
        match validateLeafFields rest content with
        | .error e => .error e
        | .ok tail => .ok ((f.name, v2) :: tail)

/-- Validate every element of a list field against the nested component
spec; each element must be an object. -/
def checkItems (fname : String) (itemSpec : List LeafSpec) :
    List Value → Except ValErr (List Value)
  | [] => .ok []
  | .obj fields :: rest =>
    match validateLeafFields itemSpec fields with
    | .error e => .error e
    | .ok norm =>
      match checkItems fname itemSpec rest with
      | .error e => .error e
      | .ok tail => .ok (.obj norm :: tail)
  | _ :: _ => .error (.typeMismatch fname)

/-- `true` iff `n` lies within the optional `min_length`/`max_length`
bounds of a list field. -/
def withinBounds (minItems maxItems : Option Nat) (n : Nat) : Bool :=
  (match minItems with
   | none => true
   | some lo => decide (lo ≤ n)) &&
  (match maxItems with
   | none => true
   | some hi => decide (n ≤ hi))

/-- Validate one top-level value against its field kind. -/
def checkField (fname : String) (k : FieldKind) (v : Value) : Except ValErr Value :=
  match k with
  | .leaf lk => checkLeaf fname lk v
  | .listOf itemSpec minItems maxItems =>
    match v with
    | .list items =>
      if withinBounds minItems maxItems items.length then
        match checkItems fname itemSpec items with
        | .error e => .error e
        | .ok norm => .ok (.list norm)
      else .error (.cardinalityError fname minItems maxItems items.length)
    | _ => .error (.typeMismatch fname)

/-- Validate a content mapping against a model: the embedding of
constructing a pydantic model from keyword arguments
(`model_class(**content)`) followed by `model_dump()`.  Undeclared keys
are ignored; the output lists exactly the declared fields in declaration
order with nested objects normalised the same way. -/
def validateFields : List FieldSpec → List (String × Value) →
    Except ValErr (List (String × Value))
  | [], _ => .ok []
  | f :: rest, content =>
    match content.lookup f.name with
    | none => .error (.missingField f.name)
    | some v =>
      match checkField f.name f.kind v with
      | .error e => .error e
      | .ok v2 =>
        match validateFields rest content with
        | .error e => .error e
        | .ok tail => .ok ((f.name, v2) :: tail)

/-!
## `src/slide_renderer/schemas/content.py`

The 14 pydantic content models of the renderer package, embedded as
field-spec lists.  Bounds are copied from the `Field(...)` declarations.
-/

namespace ContentPy

/-- `ListItem`: `title` (max 100) and `description` (max 300). -/
def ListItem : List LeafSpec :=
  [⟨"title", .text (some 100)⟩, ⟨"description", .text (some 300)⟩]

/-- `ImageItem`: `url` (no bound) and `alt` (max 100). -/
def ImageItem : List LeafSpec :=
  [⟨"url", .text none⟩, ⟨"alt", .text (some 100)⟩]

/-- `MetricValue`: `value` (max 20) and `label` (max 50). -/
def MetricValue : List LeafSpec :=
  [⟨"value", .text (some 20)⟩, ⟨"label", .text (some 50)⟩]

/-- `MetricWithDescription`: `value` (max 20) and `description` (max 150). -/
def MetricWithDescription : List LeafSpec :=
  [⟨"value", .text (some 20)⟩, ⟨"description", .text (some 150)⟩]

/-- `TitleSlideContent`. -/
def TitleSlideContent : List FieldSpec :=
  [⟨"title", .leaf (.text (some 80))⟩, ⟨"subtitle", .leaf (.text (some 120))⟩]

/-- `SectionTitleContent`. -/
def SectionTitleContent : List FieldSpec :=
  [⟨"title", .leaf (.text (some 60))⟩]

/-- `SingleContentWithImageContent`. -/
def SingleContentWithImageContent : List FieldSpec :=
  [⟨"title", .leaf (.text (some 60))⟩, ⟨"description", .leaf (.text (some 300))⟩,
   ⟨"image_url", .leaf (.text none)⟩, ⟨"image_alt", .leaf (.text (some 100))⟩]

/-- `HighlightContent`. -/
def HighlightContent : List FieldSpec :=
  [⟨"title", .leaf (.text (some 40))⟩, ⟨"content", .leaf (.text (some 200))⟩]

/-- `TwoColumnListContent`: `title` max 40, 2-4 `ListItem`s. -/
def TwoColumnListContent : List FieldSpec :=
  [⟨"title", .leaf (.text (some 40))⟩, ⟨"items", .listOf ListItem (some 2) (some 4)⟩]

/-- `VerticalListContent`: `title` max 60, 3-6 `ListItem`s. -/
def VerticalListContent : List FieldSpec :=
  [⟨"title", .leaf (.text (some 60))⟩, ⟨"items", .listOf ListItem (some 3) (some 6)⟩]

/-- `Horizontal3ColumnListContent`: `title` max 60, exactly 3 `ListItem`s. -/
def Horizontal3ColumnListContent : List FieldSpec :=
  [⟨"title", .leaf (.text (some 60))⟩, ⟨"items", .listOf ListItem (some 3) (some 3)⟩]

/-- `TwoColumnsWithGridContent`: `title` max 40, exactly 4 `ListItem`s. -/
def TwoColumnsWithGridContent : List FieldSpec :=
  [⟨"title", .leaf (.text (some 40))⟩, ⟨"items", .listOf ListItem (some 4) (some 4)⟩]

/-- `Horizontal4ColumnListContent`: `title` max 60, exactly 4 `ListItem`s. -/
def Horizontal4ColumnListContent : List FieldSpec :=
  [⟨"title", .leaf (.text (some 60))⟩, ⟨"items", .listOf ListItem (some 4) (some 4)⟩]

/-- `ImageWithDescription2Content`: `title` max 60, exactly 2 `ImageItem`s
and exactly 2 `ListItem`s. -/
def ImageWithDescription2Content : List FieldSpec :=
  [⟨"title", .leaf (.text (some 60))⟩, ⟨"images", .listOf ImageItem (some 2) (some 2)⟩,
   ⟨"items", .listOf ListItem (some 2) (some 2)⟩]

/-- `ImageWithDescription3Content`: `title` max 60, exactly 3 `ImageItem`s
and exactly 3 `ListItem`s. -/
def ImageWithDescription3Content : List FieldSpec :=
  [⟨"title", .leaf (.text (some 60))⟩, ⟨"images", .listOf ImageItem (some 3) (some 3)⟩,
   ⟨"items", .listOf ListItem (some 3) (some 3)⟩]

/-- `ThreeColumnMetricsContent`: `title` max 60, exactly 3 metrics. -/
def ThreeColumnMetricsContent : List FieldSpec :=
  [⟨"title", .leaf (.text (some 60))⟩,
   ⟨"metrics", .listOf MetricWithDescription (some 3) (some 3)⟩]

/-- `MetricsGridContent`: `title` max 40, `description` max 200, exactly
4 metrics. -/
def MetricsGridContent : List FieldSpec :=
  [⟨"title", .leaf (.text (some 40))⟩, ⟨"description", .leaf (.text (some 200))⟩,
   ⟨"metrics", .listOf MetricValue (some 4) (some 4)⟩]

/-- `QuoteContent`: `quote` max 200, `author` max 80. -/
def QuoteContent : List FieldSpec :=
  [⟨"quote", .leaf (.text (some 200))⟩, ⟨"author", .leaf (.text (some 80))⟩]

/-- `SLIDE_CONTENT_MODELS`: tag → content model, in source order. -/
def SLIDE_CONTENT_MODELS : List (String × List FieldSpec) :=
  [("title_slide", TitleSlideContent),
   ("section_title", SectionTitleContent),
   ("single_content_with_image", SingleContentWithImageContent),
   ("highlight", HighlightContent),
   ("two_column_list", TwoColumnListContent),
   ("vertical_list", VerticalListContent),
   ("horizontal_3_column_list", Horizontal3ColumnListContent),
   ("two_columns_with_grid", TwoColumnsWithGridContent),
   ("horizontal_4_column_list", Horizontal4ColumnListContent),
   ("image_with_description_2", ImageWithDescription2Content),
   ("image_with_description_3", ImageWithDescription3Content),
   ("three_column_metrics", ThreeColumnMetricsContent),
   ("metrics_grid", MetricsGridContent),
   ("quote", QuoteContent)]

/-- `get_content_model`: raises `ValueError` for tags outside the fixed
mapping (the full Python message also lists the valid tags). -/
def get_content_model (slide_type : String) : Except String (List FieldSpec) :=
  match SLIDE_CONTENT_MODELS.lookup slide_type with
  | none => .error (s!"Invalid slide type: {slide_type}")
  | some m => .ok m

end ContentPy

/-!
## `src/paper_to_presentation/models.py`

The second, near-duplicate set of pydantic models used by the
generation pipeline.  Every Phase-2 content model additionally requires
a `type` field that must be one of the 14 `SlideType` enum values.
-/

namespace ModelsPy

/-- The 14 values of the `SlideType` enum. -/
def slideTypeValues : List String :=
  ["title_slide", "section_title", "single_content_with_image", "highlight",
   "two_column_list", "vertical_list", "horizontal_3_column_list",
   "two_columns_with_grid", "horizontal_4_column_list",
   "image_with_description_2", "image_with_description_3",
   "three_column_metrics", "metrics_grid", "quote"]

/-- `ListItem`: `title` (max 100) and `description` (max 300). -/
def ListItem : List LeafSpec :=
  [⟨"title", .text (some 100)⟩, ⟨"description", .text (some 300)⟩]

/-- `ImageItem`: `url` (max 500) and `alt_text` (max 200). -/
def ImageItem : List LeafSpec :=
  [⟨"url", .text (some 500)⟩, ⟨"alt_text", .text (some 200)⟩]

/-- `MetricValue`: `value` (max 20) and `label` (max 50). -/
def MetricValue : List LeafSpec :=
  [⟨"value", .text (some 20)⟩, ⟨"label", .text (some 50)⟩]

/-- `MetricWithDescription`: `value` (max 20) and `description` (max 150). -/
def MetricWithDescription : List LeafSpec :=
  [⟨"value", .text (some 20)⟩, ⟨"description", .text (some 150)⟩]

/-- The `type: SlideType` field shared by all Phase-2 content models. -/
def typeField : FieldSpec := ⟨"type", .leaf (.enumTag slideTypeValues)⟩

/-- `TitleSlideContent`. -/
def TitleSlideContent : List FieldSpec :=
  [typeField, ⟨"title", .leaf (.text (some 80))⟩, ⟨"subtitle", .leaf (.text (some 120))⟩]

/-- `SectionTitleContent`. -/
def SectionTitleContent : List FieldSpec :=
  [typeField, ⟨"title", .leaf (.text (some 60))⟩]

/-- `SingleContentWithImageContent`. -/
def SingleContentWithImageContent : List FieldSpec :=
  [typeField, ⟨"title", .leaf (.text (some 60))⟩, ⟨"description", .leaf (.text (some 300))⟩,
   ⟨"image_url", .leaf (.text (some 500))⟩, ⟨"image_alt", .leaf (.text (some 200))⟩]

/-- `HighlightContent`. -/
def HighlightContent : List FieldSpec :=
  [typeField, ⟨"title", .leaf (.text (some 40))⟩, ⟨"content", .leaf (.text (some 200))⟩]

/-- `TwoColumnListContent`: `title` max 60 (the renderer package's
version of this model caps `title` at 40), 2-4 `ListItem`s. -/
def TwoColumnListContent : List FieldSpec :=
  [typeField, ⟨"title", .leaf (.text (some 60))⟩,
   ⟨"items", .listOf ListItem (some 2) (some 4)⟩]

/-- `VerticalListContent`. -/
def VerticalListContent : List FieldSpec :=
  [typeField, ⟨"title", .leaf (.text (some 60))⟩,
   ⟨"items", .listOf ListItem (some 3) (some 6)⟩]

/-- `Horizontal3ColumnListContent`. -/
def Horizontal3ColumnListContent : List FieldSpec :=
  [typeField, ⟨"title", .leaf (.text (some 60))⟩,
   ⟨"items", .listOf ListItem (some 3) (some 3)⟩]

/-- `TwoColumnsWithGridContent`: `title` max 60 here (max 40 in the
renderer package's version). -/
def TwoColumnsWithGridContent : List FieldSpec :=
  [typeField, ⟨"title", .leaf (.text (some 60))⟩,
   ⟨"items", .listOf ListItem (some 4) (some 4)⟩]

/-- `Horizontal4ColumnListContent`. -/
def Horizontal4ColumnListContent : List FieldSpec :=
  [typeField, ⟨"title", .leaf (.text (some 60))⟩,
   ⟨"items", .listOf ListItem (some 4) (some 4)⟩]

/-- `ImageWithDescription2Content`. -/
def ImageWithDescription2Content : List FieldSpec :=
  [typeField, ⟨"title", .leaf (.text (some 60))⟩,
   ⟨"images", .listOf ImageItem (some 2) (some 2)⟩,
   ⟨"items", .listOf ListItem (some 2) (some 2)⟩]

/-- `ImageWithDescription3Content`. -/
def ImageWithDescription3Content : List FieldSpec :=
  [typeField, ⟨"title", .leaf (.text (some 60))⟩,
   ⟨"images", .listOf ImageItem (some 3) (some 3)⟩,
   ⟨"items", .listOf ListItem (some 3) (some 3)⟩]

/-- `ThreeColumnMetricsContent`. -/
def ThreeColumnMetricsContent : List FieldSpec :=
  [typeField, ⟨"title", .leaf (.text (some 60))⟩,
   ⟨"metrics", .listOf MetricWithDescription (some 3) (some 3)⟩]

/-- `MetricsGridContent`. -/
def MetricsGridContent : List FieldSpec :=
  [typeField, ⟨"title", .leaf (.text (some 40))⟩,
   ⟨"description", .leaf (.text (some 200))⟩,
   ⟨"metrics", .listOf MetricValue (some 4) (some 4)⟩]

/-- `QuoteContent`. -/
def QuoteContent : List FieldSpec :=
  [typeField, ⟨"quote", .leaf (.text (some 200))⟩, ⟨"author", .leaf (.text (some 80))⟩]

/-- `SLIDE_TYPE_MODELS`: enum value → Phase-2 content model. -/
def SLIDE_TYPE_MODELS : List (String × List FieldSpec) :=
  [("title_slide", TitleSlideContent),
   ("section_title", SectionTitleContent),
   ("single_content_with_image", SingleContentWithImageContent),
   ("highlight", HighlightContent),
   ("two_column_list", TwoColumnListContent),
   ("vertical_list", VerticalListContent),
   ("horizontal_3_column_list", Horizontal3ColumnListContent),
   ("two_columns_with_grid", TwoColumnsWithGridContent),
   ("horizontal_4_column_list", Horizontal4ColumnListContent),
   ("image_with_description_2", ImageWithDescription2Content),
   ("image_with_description_3", ImageWithDescription3Content),
   ("three_column_metrics", ThreeColumnMetricsContent),
   ("metrics_grid", MetricsGridContent),
   ("quote", QuoteContent)]

/-- `SlideOutline` (planning phase): `slide_number` int, `type` one of
the 14 enum values, `purpose` max 200, `key_points` max 500. -/
def SlideOutlineSpec : List LeafSpec :=
  [⟨"slide_number", .intVal⟩, ⟨"type", .enumTag slideTypeValues⟩,
   ⟨"purpose", .text (some 200)⟩, ⟨"key_points", .text (some 500)⟩]

/-- `PresentationPlan`: `title` max 100, `total_slides` int, `slides` a
list of `SlideOutline` with no length bounds declared. -/
def PresentationPlanSpec : List FieldSpec :=
  [⟨"title", .leaf (.text (some 100))⟩, ⟨"total_slides", .leaf .intVal⟩,
   ⟨"slides", .listOf SlideOutlineSpec none none⟩]

end ModelsPy

/-!
## `src/slide_renderer/renderer.py`

The Jinja2 environment is external: it is modelled as a partial lookup
from slide type tag to an opaque template function over the (validated)
content mapping.  Errors are carried as the `ValueError` message strings
the Python code raises.
-/

/-- The renderer: its only state relevant to the embedded methods is the
set of available templates (`{slide_type}.jinja2` files in
`template_dir`). -/
structure SlideRenderer where
  templates : String → Option (List (String × Value) → String)

/-- Python's `str()` of the `slide_type` variable as it appears in the
batch error message: `None` when the `type` key was absent. -/
def tagShow : Option String → String
  | none => "None"
  | some t => t

/-- Render a `ValErr` as text; stands in for pydantic's
`ValidationError` message interpolated into the `ValueError` the
renderer raises. -/
def ValErr.msg : ValErr → String
  | .missingField f => s!"Field required: {f}"
  | .fieldTooLong f limit actual =>
      s!"String should have at most {limit} characters: {f} (got {actual})"
  | .cardinalityError f _ _ actual =>
      s!"List length out of range: {f} (got {actual})"
  | .typeMismatch f => s!"Input should be a valid value: {f}"

/-- `SlideRenderer.validate_content`: resolve the model via
`get_content_model` (a `ValueError` for unknown tags propagates
unchanged) and validate, re-raising pydantic's `ValidationError` as a
`ValueError` with the slide type in the message. -/
def SlideRenderer.validate_content (slide_type : String)
    (content : List (String × Value)) : Except String (List (String × Value)) :=
  match ContentPy.get_content_model slide_type with
  | .error e => .error e
  | .ok model =>
    match validateFields model content with
    | .error e => .error (s!"Validation error for slide type '{slide_type}':\n" ++ e.msg)
    | .ok validated => .ok validated

/-- `SlideRenderer.render`: optionally validate (replacing the content
by the normalised `model_dump()`), then look up the template
(`ValueError` if the template file is missing) and render it. -/
def SlideRenderer.render (r : SlideRenderer) (slide_type : String)
    (content : List (String × Value)) (validate : Bool := true) :
    Except String String :=
  match (if validate then SlideRenderer.validate_content slide_type content
         else .ok content) with
  | .error e => .error e
  | .ok c =>
    match r.templates slide_type with
    | none => .error (s!"Template not found for slide type: {slide_type}")
    | some template => .ok (template c)

/-- One entry of the batch input: a dict with optional `type` and
`content` keys (`slide_data.get("type")`, `slide_data.get("content", {})`). -/
structure SlideData where
  type? : Option String
  content : List (String × Value)

/-- The body of `render_presentation`'s per-slide `try` block at index
`i`: fail for a missing (or empty, i.e. falsy) `type`, else render. -/
def renderInner (r : SlideRenderer) (validate : Bool) (i : Nat) (s : SlideData) :
    Except String String :=
  match s.type? with
  | none => .error (s!"Slide {i}: Missing 'type' field")
  | some t =>
    if t = "" then .error (s!"Slide {i}: Missing 'type' field")
    else r.render t s.content validate

/-- The message of the `ValueError` that `render_presentation` raises
when slide `i` fails: it carries the 0-based index, the entry's tag and
the underlying cause. -/
def slideErrorMsg (i : Nat) (tagStr : String) (cause : String) : String :=
  s!"Error rendering slide {i} ({tagStr}): {cause}"

/-- The `for i, slide_data in enumerate(slides)` loop: render each entry
in input order, wrapping any failure with index/tag context and
aborting the whole batch. -/
def renderSlides (r : SlideRenderer) (validate : Bool) :
    Nat → List SlideData → Except String (List String)
  | _, [] => .ok []
  | i, s :: rest =>
    match renderInner r validate i s with
    | .error e => .error (slideErrorMsg i (tagShow s.type?) e)
    | .ok frag =>
      match renderSlides r validate (i + 1) rest with
      | .error e => .error e
      | .ok tail => .ok (frag :: tail)

/-- The fixed separator joining rendered slides. -/
def slideSeparator : String := "\n---\n\n"

/-- The fixed Marp front-matter block. -/
def frontmatter : String := "---\nmarp: true\ntheme: custom-style\n---\n\n"

/-- `SlideRenderer.render_presentation`: render every entry in order,
join the fragments with the fixed separator, and prepend the
front-matter when requested. -/
def SlideRenderer.render_presentation (r : SlideRenderer)
    (slides : List SlideData) (validate : Bool := true)
    (include_frontmatter : Bool := true) : Except String String :=
  match renderSlides r validate 0 slides with
  | .error e => .error e
  | .ok rendered_slides =>
    let slides_content := String.intercalate slideSeparator rendered_slides
    if include_frontmatter then .ok (frontmatter ++ slides_content)
    else .ok slides_content

/-!
## `src/paper_to_presentation/generator.py` and `planning.py`

The chat-completion collaborator plus `json.loads` is modelled as a
function from the message list to either an error string (API fault or
parse failure) or the parsed JSON object.  The system / user prompt
strings, which the source builds from the outline and paper data, are
taken as parameters.
-/

/-- A role-tagged chat message. -/
structure ChatMsg where
  role : String
  content : String
deriving DecidableEq

/-- The retry prompt of `phase2_generate_slide`: the original prompt
followed by the previous attempt's validation feedback. -/
def retryPrompt (prompt validation_feedback : String) : String :=
  prompt ++ "\n\n**VALIDATION FEEDBACK FROM PREVIOUS ATTEMPT**:\n" ++
  "The previous generation failed validation with the following error:\n" ++
  validation_feedback ++
  "\n\n**CRITICAL**: Fix the above validation errors. Pay special attention to:\n" ++
  "- Character limits (must be STRICTLY followed)\n" ++
  "- List length constraints (min/max items)\n" ++
  "- Required fields (all must be present)\n" ++
  "- Field types (strings, numbers, lists)\n\n" ++
  "Regenerate the slide with ALL validation errors fixed.\n"

/-- Message construction of one attempt: the system message plus either
the plain prompt or, when this is a retry and the feedback is truthy
(`if validation_feedback and attempt > 0`), the retry prompt. -/
def buildMessages (sysMsg prompt : String) (validation_feedback : Option String)
    (attempt : Nat) : List ChatMsg :=
  match validation_feedback with
  | some fb =>
    if fb ≠ "" ∧ 0 < attempt then
      [⟨"system", sysMsg⟩, ⟨"user", retryPrompt prompt fb⟩]
    else [⟨"system", sysMsg⟩, ⟨"user", prompt⟩]
  | none => [⟨"system", sysMsg⟩, ⟨"user", prompt⟩]

/-- The body of one attempt's `try` block: call the collaborator, parse
(its failures arrive as `.error`), then validate against the slide
type's Phase-2 content model; any pydantic error becomes the feedback
text `str(e)`.  Success returns `slide_content.model_dump()`. -/
def attemptOutcome (chat : List ChatMsg → Except String (List (String × Value)))
    (model : List FieldSpec) (msgs : List ChatMsg) :
    Except String (List (String × Value)) :=
  match chat msgs with
  | .error e => .error e
  | .ok slide_data =>
    match validateFields model slide_data with
    | .error ve => .error ve.msg
    | .ok slide_content => .ok slide_content

/-- The `for attempt in range(max_retries + 1)` loop of
`phase2_generate_slide`, recursing on the number of remaining retries.
Besides the source's return value (the content dict, or `None` once the
final attempt fails) the embedding also records the message list sent
to the collaborator on each sequential attempt. -/
def genAttempts (chat : List ChatMsg → Except String (List (String × Value)))
    (model : List FieldSpec) (sysMsg prompt : String) :
    Nat → Nat → Option String →
    Option (List (String × Value)) × List (List ChatMsg)
  | attempt, remaining, validation_feedback =>
    let msgs := buildMessages sysMsg prompt validation_feedback attempt
    match attemptOutcome chat model msgs with
    | .ok c => (some c, [msgs])
    | .error e =>
      match remaining with
      | 0 => (none, [msgs])
      | r + 1 =>
        let next := genAttempts chat model sysMsg prompt (attempt + 1) r (some e)
        (next.1, msgs :: next.2)

/-- `phase2_generate_slide`: up to `max_retries + 1` sequential attempts
starting with no feedback; `model` is `SLIDE_TYPE_MODELS[slide_outline.type]`. -/
def phase2_generate_slide (chat : List ChatMsg → Except String (List (String × Value)))
    (model : List FieldSpec) (sysMsg prompt : String) (max_retries : Nat := 2) :
    Option (List (String × Value)) × List (List ChatMsg) :=
  genAttempts chat model sysMsg prompt 0 max_retries none

/-- One entry of a presentation plan (`SlideOutline`). -/
structure OutlineEntry where
  slide_number : Int
  type : String
  purpose : String
  key_points : String

/-- Outcome of one Phase-2 generation task as observed by
`asyncio.gather(*tasks, return_exceptions=True)`: a content dict, the
`None` a task returns after exhausting its retries, or an exception the
gather captured. -/
inductive TaskOutcome where
  | ok (content : List (String × Value))
  | failed
  | fault (msg : String)

/-- The collection loop of `phase2_generate_all_slides`: exceptions and
`None` results are dropped (with a log line), successes are kept in
order. -/
def collectSuccessful : List TaskOutcome → List (List (String × Value))
  | [] => []
  | .ok c :: rest => c :: collectSuccessful rest
  | .failed :: rest => collectSuccessful rest
  | .fault _ :: rest => collectSuccessful rest

/-- `phase2_generate_all_slides`: one generation task per outline entry.
Tasks share no mutable state, so each task's outcome is a function
`runTask` of its entry; `asyncio.gather` returns the outcomes aligned
with `plan.slides` in input order, and the successful contents are
collected in that order. -/
def phase2_generate_all_slides (runTask : OutlineEntry → TaskOutcome)
    (planSlides : List OutlineEntry) : List (List (String × Value)) :=
  collectSuccessful (planSlides.map runTask)

/-- The validation the Phase-1 planner applies to the collaborator's
parsed output: exactly `PresentationPlan(**plan_data)`.  The
`max_slides` argument is interpolated into the prompt only; no part of
the validation reads it.  A parse or validation failure is logged and
re-raised (no fallback to an empty plan). -/
def phase1_plan_validate (max_slides : Nat) (plan_data : List (String × Value)) :
    Except ValErr (List (String × Value)) :=
  validateFields ModelsPy.PresentationPlanSpec plan_data

/-!
## `src/paper_to_presentation/utils.py` — `convert_figure_ids_to_urls`

Python string helpers are re-implemented structurally (fuel-based) so
that concrete inputs evaluate inside the kernel.  `pyReplace` mirrors
`str.replace` for a non-empty pattern (the only way the source calls
it: figure ids are non-empty keys of `figure_map`).
-/

/-- `pat in s` on character lists, as Python's substring test. -/
def charsContains (s pat : List Char) : Bool :=
  match s with
  | [] => pat.isEmpty
  | c :: rest => pat.isPrefixOf (c :: rest) || charsContains rest pat

/-- Left-to-right non-overlapping replacement, as Python's
`str.replace`; `fuel` bounds the number of scan steps and is
instantiated with the string length. -/
def replaceFrom (pat rep : List Char) : Nat → List Char → List Char
  | _, [] => []
  | 0, s => s
  | fuel + 1, c :: rest =>
    if pat.isPrefixOf (c :: rest) then
      rep ++ replaceFrom pat rep fuel (List.drop (pat.length - 1) rest)
    else c :: replaceFrom pat rep fuel rest

/-- Python's `pat in s`. -/
def pyContains (s pat : String) : Bool := charsContains s.data pat.data

/-- Python's `s.replace(pat, rep)` for non-empty `pat`. -/
def pyReplace (s pat rep : String) : String :=
  if pat.data.isEmpty then s
  else ⟨replaceFrom pat.data rep.data s.data.length s.data⟩

/-- Python's `s.startswith(p)`. -/
def pyStartsWith (s p : String) : Bool := p.data.isPrefixOf s.data

/-- The URL rewrite applied to `image_url` / `image` / `images[i].url`
string values: a key of `figure_map` becomes its URL; an unknown token
that looks like a figure id (starts with `"S"` and contains `"."`) is
cleared to the empty string with a warning; anything else is kept. -/
def convertUrlString (figure_map : List (String × String)) (u : String) : String :=
  match figure_map.lookup u with
  | some url => url
  | none => if pyStartsWith u "S" && pyContains u "." then "" else u

/-- The text rewrite applied to `description` / `title` / `content` /
`subtitle` fields and to item texts: every figure id occurring in the
text is replaced by `"(see figure)"` (and any then-remaining
`"Figure {fig_id}"`), iterating over `figure_map`'s keys in order. -/
def replaceFigRefs (figKeys : List String) (s : String) : String :=
  figKeys.foldl (fun acc fig_id =>
    if pyContains acc fig_id then
      pyReplace (pyReplace acc fig_id "(see figure)") ("Figure " ++ fig_id) "(see figure)"
    else acc) s

/-- One element of an `images` list: a dict gets its `url` entry
rewritten (the source assumes a string there; a non-string url is out
of scope as the source would raise), a bare string is rewritten
directly, anything else is untouched. -/
def convertImageEntry (figure_map : List (String × String)) : Value → Value
  | .obj fields =>
    .obj (fields.map fun kv =>
      if kv.1 = "url" then
        (kv.1, match kv.2 with
               | .str u => Value.str (convertUrlString figure_map u)
               | v => v)
      else kv)
  | .str u => .str (convertUrlString figure_map u)
  | v => v

/-- One element of an `items` list: a dict gets its `description` and
`title` string entries passed through the text rewrite. -/
def convertItemEntry (figure_map : List (String × String)) : Value → Value
  | .obj fields =>
    .obj (fields.map fun kv =>
      if kv.1 = "description" ∨ kv.1 = "title" then
        (kv.1, match kv.2 with
               | .str s => Value.str (replaceFigRefs (figure_map.map Prod.fst) s)
               | v => v)
      else kv)
  | v => v

/-- The transformation `convert_figure_ids_to_urls` applies to one
entry of a slide dict, keyed by the entry's name; keys outside the
touched set are left untouched. -/
def keyTransform (figure_map : List (String × String)) (k : String) (v : Value) : Value :=
  if k = "image_url" ∨ k = "image" then
    match v with
    | .str u => .str (convertUrlString figure_map u)
    | _ => v
  else if k = "images" then
    match v with
    | .list imgs => .list (imgs.map (convertImageEntry figure_map))
    | _ => v
  else if k = "description" ∨ k = "title" ∨ k = "content" ∨ k = "subtitle" then
    match v with
    | .str s => .str (replaceFigRefs (figure_map.map Prod.fst) s)
    | _ => v
  else if k = "items" then
    match v with
    | .list its => .list (its.map (convertItemEntry figure_map))
    | _ => v
  else v

/-- The per-slide body of the loop over `slides_copy`. -/
def convertSlide (figure_map : List (String × String))
    (slide : List (String × Value)) : List (String × Value) :=
  slide.map fun kv => (kv.1, keyTransform figure_map kv.1 kv.2)

/-- `convert_figure_ids_to_urls`, state-passing: the source first takes
`copy.deepcopy(slides)` and every write targets the copy, so the
post-call value of the caller's `slides` argument (first component) is
the input itself, while the returned list (second component) is the
transformed copy. -/
def convert_figure_ids_to_urls (slides : List (List (String × Value)))
    (figure_map : List (String × String)) :
    List (List (String × Value)) × List (List (String × Value)) :=
  let slides_copy := slides.map (convertSlide figure_map)
  (slides, slides_copy)

/-!
## Concrete content helpers used by the claim theorems
-/

/-- A minimal valid `ListItem` mapping. -/
def demoListItem : Value := .obj [("title", .str "t"), ("description", .str "d")]

/-- `n` copies of the minimal `ListItem`. -/
def demoListItems (n : Nat) : Value := .list (List.replicate n demoListItem)

/-- A minimal valid `ImageItem` mapping (renderer-package field names). -/
def demoImageItem : Value := .obj [("url", .str "u"), ("alt", .str "a")]

/-- `n` copies of the minimal `ImageItem`. -/
def demoImageItems (n : Nat) : Value := .list (List.replicate n demoImageItem)

/-- A minimal valid `MetricValue` mapping. -/
def demoMetricValue : Value := .obj [("value", .str "61%"), ("label", .str "m")]

/-- `n` copies of the minimal `MetricValue`. -/
def demoMetricValues (n : Nat) : Value := .list (List.replicate n demoMetricValue)

/-- A minimal valid `MetricWithDescription` mapping. -/
def demoMetricDescr : Value := .obj [("value", .str "61%"), ("description", .str "d")]

/-- `n` copies of the minimal `MetricWithDescription`. -/
def demoMetricDescrs (n : Nat) : Value := .list (List.replicate n demoMetricDescr)

/-- A string of `n` copies of `x`. -/
def xChars (n : Nat) : String := ⟨List.replicate n 'x'⟩

/-- C1.  For every renderer-package tag with list-cardinality
constraints, validation accepts a minimal content mapping whose list
lengths sit exactly at the schema's bounds and rejects one item fewer
or one item more with a cardinality error; in particular
`horizontal_3_column_list` requires exactly 3 items, `vertical_list`
between 3 and 6, and `image_with_description_2` exactly 2 images and
exactly 2 description items. -/
theorem claim_C1_cardinality_bounds :
    -- two_column_list: 2-4 items
    (ContentPy.get_content_model "two_column_list" = .ok ContentPy.TwoColumnListContent ∧
     (validateFields ContentPy.TwoColumnListContent
       [("title", .str "T"), ("items", demoListItems 2)]).isOk = true ∧
     (validateFields ContentPy.TwoColumnListContent
       [("title", .str "T"), ("items", demoListItems 4)]).isOk = true ∧
     validateFields ContentPy.TwoColumnListContent
       [("title", .str "T"), ("items", demoListItems 1)]
       = .error (.cardinalityError "items" (some 2) (some 4) 1) ∧
     validateFields ContentPy.TwoColumnListContent
       [("title", .str "T"), ("items", demoListItems 5)]
       = .error (.cardinalityError "items" (some 2) (some 4) 5)) ∧
    -- vertical_list: 3-6 items
    (ContentPy.get_content_model "vertical_list" = .ok ContentPy.VerticalListContent ∧
     (validateFields ContentPy.VerticalListContent
       [("title", .str "T"), ("items", demoListItems 3)]).isOk = true ∧
     (validateFields ContentPy.VerticalListContent
       [("title", .str "T"), ("items", demoListItems 6)]).isOk = true ∧
     validateFields ContentPy.VerticalListContent
       [("title", .str "T"), ("items", demoListItems 2)]
       = .error (.cardinalityError "items" (some 3) (some 6) 2) ∧
     validateFields ContentPy.VerticalListContent
       [("title", .str "T"), ("items", demoListItems 7)]
       = .error (.cardinalityError "items" (some 3) (some 6) 7)) ∧
    -- horizontal_3_column_list: exactly 3 items
    (ContentPy.get_content_model "horizontal_3_column_list"
       = .ok ContentPy.Horizontal3ColumnListContent ∧
     (validateFields ContentPy.Horizontal3ColumnListContent
       [("title", .str "T"), ("items", demoListItems 3)]).isOk = true ∧
     validateFields ContentPy.Horizontal3ColumnListContent
       [("title", .str "T"), ("items", demoListItems 2)]
       = .error (.cardinalityError "items" (some 3) (some 3) 2) ∧
     validateFields ContentPy.Horizontal3ColumnListContent
       [("title", .str "T"), ("items", demoListItems 4)]
       = .error (.cardinalityError "items" (some 3) (some 3) 4)) ∧
    -- two_columns_with_grid: exactly 4 items
    (ContentPy.get_content_model "two_columns_with_grid"
       = .ok ContentPy.TwoColumnsWithGridContent ∧
     (validateFields ContentPy.TwoColumnsWithGridContent
       [("title", .str "T"), ("items", demoListItems 4)]).isOk = true ∧
     validateFields ContentPy.TwoColumnsWithGridContent
       [("title", .str "T"), ("items", demoListItems 3)]
       = .error (.cardinalityError "items" (some 4) (some 4) 3) ∧
     validateFields ContentPy.TwoColumnsWithGridContent
       [("title", .str "T"), ("items", demoListItems 5)]
       = .error (.cardinalityError "items" (some 4) (some 4) 5)) ∧
    -- horizontal_4_column_list: exactly 4 items
    (ContentPy.get_content_model "horizontal_4_column_list"
       = .ok ContentPy.Horizontal4ColumnListContent ∧
     (validateFields ContentPy.Horizontal4ColumnListContent
       [("title", .str "T"), ("items", demoListItems 4)]).isOk = true ∧
     validateFields ContentPy.Horizontal4ColumnListContent
       [("title", .str "T"), ("items", demoListItems 3)]
       = .error (.cardinalityError "items" (some 4) (some 4) 3) ∧
     validateFields ContentPy.Horizontal4ColumnListContent
       [("title", .str "T"), ("items", demoListItems 5)]
       = .error (.cardinalityError "items" (some 4) (some 4) 5)) ∧
    -- image_with_description_2: exactly 2 images and exactly 2 items
    (ContentPy.get_content_model "image_with_description_2"
       = .ok ContentPy.ImageWithDescription2Content ∧
     (validateFields ContentPy.ImageWithDescription2Content
       [("title", .str "T"), ("images", demoImageItems 2),
        ("items", demoListItems 2)]).isOk = true ∧
     validateFields ContentPy.ImageWithDescription2Content
       [("title", .str "T"), ("images", demoImageItems 1), ("items", demoListItems 2)]
       = .error (.cardinalityError "images" (some 2) (some 2) 1) ∧
     validateFields ContentPy.ImageWithDescription2Content
       [("title", .str "T"), ("images", demoImageItems 3), ("items", demoListItems 2)]
       = .error (.cardinalityError "images" (some 2) (some 2) 3) ∧
     validateFields ContentPy.ImageWithDescription2Content
       [("title", .str "T"), ("images", demoImageItems 2), ("items", demoListItems 1)]
       = .error (.cardinalityError "items" (some 2) (some 2) 1) ∧
     validateFields ContentPy.ImageWithDescription2Content
       [("title", .str "T"), ("images", demoImageItems 2), ("items", demoListItems 3)]
       = .error (.cardinalityError "items" (some 2) (some 2) 3)) ∧
    -- image_with_description_3: exactly 3 images and exactly 3 items
    (ContentPy.get_content_model "image_with_description_3"
       = .ok ContentPy.ImageWithDescription3Content ∧
     (validateFields ContentPy.ImageWithDescription3Content
       [("title", .str "T"), ("images", demoImageItems 3),
        ("items", demoListItems 3)]).isOk = true ∧
     validateFields ContentPy.ImageWithDescription3Content
       [("title", .str "T"), ("images", demoImageItems 2), ("items", demoListItems 3)]
       = .error (.cardinalityError "images" (some 3) (some 3) 2) ∧
     validateFields ContentPy.ImageWithDescription3Content
       [("title", .str "T"), ("images", demoImageItems 4), ("items", demoListItems 3)]
       = .error (.cardinalityError "images" (some 3) (some 3) 4) ∧
     validateFields ContentPy.ImageWithDescription3Content
       [("title", .str "T"), ("images", demoImageItems 3), ("items", demoListItems 2)]
       = .error (.cardinalityError "items" (some 3) (some 3) 2) ∧
     validateFields ContentPy.ImageWithDescription3Content
       [("title", .str "T"), ("images", demoImageItems 3), ("items", demoListItems 4)]
       = .error (.cardinalityError "items" (some 3) (some 3) 4)) ∧
    -- three_column_metrics: exactly 3 metrics
    (ContentPy.get_content_model "three_column_metrics"
       = .ok ContentPy.ThreeColumnMetricsContent ∧
     (validateFields ContentPy.ThreeColumnMetricsContent
       [("title", .str "T"), ("metrics", demoMetricDescrs 3)]).isOk = true ∧
     validateFields ContentPy.ThreeColumnMetricsContent
       [("title", .str "T"), ("metrics", demoMetricDescrs 2)]
       = .error (.cardinalityError "metrics" (some 3) (some 3) 2) ∧
     validateFields ContentPy.ThreeColumnMetricsContent
       [("title", .str "T"), ("metrics", demoMetricDescrs 4)]
       = .error (.cardinalityError "metrics" (some 3) (some 3) 4)) ∧
    -- metrics_grid: exactly 4 metrics
    (ContentPy.get_content_model "metrics_grid" = .ok ContentPy.MetricsGridContent ∧
     (validateFields ContentPy.MetricsGridContent
       [("title", .str "T"), ("description", .str "D"),
        ("metrics", demoMetricValues 4)]).isOk = true ∧
     validateFields ContentPy.MetricsGridContent
       [("title", .str "T"), ("description", .str "D"), ("metrics", demoMetricValues 3)]
       = .error (.cardinalityError "metrics" (some 4) (some 4) 3) ∧
     validateFields ContentPy.MetricsGridContent
       [("title", .str "T"), ("description", .str "D"), ("metrics", demoMetricValues 5)]
       = .error (.cardinalityError "metrics" (some 4) (some 4) 5)) :=
  ⟨⟨rfl, rfl, rfl, rfl, rfl⟩, ⟨rfl, rfl, rfl, rfl, rfl⟩, ⟨rfl, rfl, rfl, rfl⟩,
   ⟨rfl, rfl, rfl, rfl⟩, ⟨rfl, rfl, rfl, rfl⟩, ⟨rfl, rfl, rfl, rfl, rfl, rfl⟩,
   ⟨rfl, rfl, rfl, rfl, rfl, rfl⟩, ⟨rfl, rfl, rfl, rfl⟩, ⟨rfl, rfl, rfl, rfl⟩⟩

/-- Evaluation lemma for `render` with validation enabled. -/
theorem render_eval {r : SlideRenderer} {st : String} {c v : List (String × Value)}
    {tmpl : List (String × Value) → String}
    (hv : SlideRenderer.validate_content st c = .ok v)
    (ht : r.templates st = some tmpl) :
    r.render st c true = .ok (tmpl v) := by
  unfold SlideRenderer.render
  simp [hv, ht]

/-- A concrete opaque template, standing in for a Jinja2 template file. -/
def demoTemplate : List (String × Value) → String := fun _ => "# demo"

/-- A renderer whose template directory contains only `title_slide.jinja2`. -/
def demoRenderer : SlideRenderer :=
  ⟨fun tag => if tag = "title_slide" then some demoTemplate else none⟩

set_option maxRecDepth 16384

/-- C2.  Every text field with a declared `max_length` accepts a value of
exactly `max_length` characters and rejects `max_length + 1` characters
with a field-too-long error naming that field; in particular the content
`{"title": "My Presentation", "subtitle": "Intro"}` for `title_slide`
validates and renders without error (given the externally supplied
`title_slide` template), while an 81-character title fails on `title`
with limit 80. -/
theorem claim_C2_text_length_bounds (r : SlideRenderer)
    (tmpl : List (String × Value) → String)
    (ht : r.templates "title_slide" = some tmpl) :
    -- the end-to-end example
    (r.render "title_slide" [("title", .str "My Presentation"), ("subtitle", .str "Intro")] true
       = .ok (tmpl [("title", .str "My Presentation"), ("subtitle", .str "Intro")])) ∧
    ((SlideRenderer.validate_content "title_slide"
       [("title", .str "My Presentation"), ("subtitle", .str "Intro")]).isOk = true ∧
     (SlideRenderer.validate_content "title_slide"
       [("title", .str (xChars 81)), ("subtitle", .str "Intro")]).isOk = false ∧
     validateFields ContentPy.TitleSlideContent
       [("title", .str (xChars 81)), ("subtitle", .str "Intro")]
       = .error (.fieldTooLong "title" 80 81)) ∧
    -- title_slide: title 80, subtitle 120
    ((validateFields ContentPy.TitleSlideContent
       [("title", .str (xChars 80)), ("subtitle", .str (xChars 120))]).isOk = true ∧
     validateFields ContentPy.TitleSlideContent
       [("title", .str "T"), ("subtitle", .str (xChars 121))]
       = .error (.fieldTooLong "subtitle" 120 121)) ∧
    -- section_title: title 60
    ((validateFields ContentPy.SectionTitleContent
       [("title", .str (xChars 60))]).isOk = true ∧
     validateFields ContentPy.SectionTitleContent
       [("title", .str (xChars 61))] = .error (.fieldTooLong "title" 60 61)) ∧
    -- single_content_with_image: title 60, description 300, image_alt 100
    ((validateFields ContentPy.SingleContentWithImageContent
       [("title", .str (xChars 60)), ("description", .str (xChars 300)),
        ("image_url", .str "u"), ("image_alt", .str (xChars 100))]).isOk = true ∧
     validateFields ContentPy.SingleContentWithImageContent
       [("title", .str (xChars 61)), ("description", .str "d"),
        ("image_url", .str "u"), ("image_alt", .str "a")]
       = .error (.fieldTooLong "title" 60 61) ∧
     validateFields ContentPy.SingleContentWithImageContent
       [("title", .str "T"), ("description", .str (xChars 301)),
        ("image_url", .str "u"), ("image_alt", .str "a")]
       = .error (.fieldTooLong "description" 300 301) ∧
     validateFields ContentPy.SingleContentWithImageContent
       [("title", .str "T"), ("description", .str "d"),
        ("image_url", .str "u"), ("image_alt", .str (xChars 101))]
       = .error (.fieldTooLong "image_alt" 100 101)) ∧
    -- highlight: title 40, content 200
    ((validateFields ContentPy.HighlightContent
       [("title", .str (xChars 40)), ("content", .str (xChars 200))]).isOk = true ∧
     validateFields ContentPy.HighlightContent
       [("title", .str (xChars 41)), ("content", .str "c")]
       = .error (.fieldTooLong "title" 40 41) ∧
     validateFields ContentPy.HighlightContent
       [("title", .str "T"), ("content", .str (xChars 201))]
       = .error (.fieldTooLong "content" 200 201)) ∧
    -- two_column_list: title 40; nested ListItem title 100, description 300
    ((validateFields ContentPy.TwoColumnListContent
       [("title", .str (xChars 40)), ("items", demoListItems 2)]).isOk = true ∧
     validateFields ContentPy.TwoColumnListContent
       [("title", .str (xChars 41)), ("items", demoListItems 2)]
       = .error (.fieldTooLong "title" 40 41) ∧
     (validateFields ContentPy.TwoColumnListContent
       [("title", .str "T"),
        ("items", .list [.obj [("title", .str (xChars 100)),
                               ("description", .str (xChars 300))],
                         demoListItem])]).isOk = true ∧
     validateFields ContentPy.TwoColumnListContent
       [("title", .str "T"),
        ("items", .list [.obj [("title", .str (xChars 101)), ("description", .str "d")],
                         demoListItem])]
       = .error (.fieldTooLong "title" 100 101) ∧
     validateFields ContentPy.TwoColumnListContent
       [("title", .str "T"),
        ("items", .list [.obj [("title", .str "t"), ("description", .str (xChars 301))],
                         demoListItem])]
       = .error (.fieldTooLong "description" 300 301)) ∧
    -- vertical_list: title 60
    ((validateFields ContentPy.VerticalListContent
       [("title", .str (xChars 60)), ("items", demoListItems 3)]).isOk = true ∧
     validateFields ContentPy.VerticalListContent
       [("title", .str (xChars 61)), ("items", demoListItems 3)]
       = .error (.fieldTooLong "title" 60 61)) ∧
    -- horizontal_3_column_list: title 60
    ((validateFields ContentPy.Horizontal3ColumnListContent
       [("title", .str (xChars 60)), ("items", demoListItems 3)]).isOk = true ∧
     validateFields ContentPy.Horizontal3ColumnListContent
       [("title", .str (xChars 61)), ("items", demoListItems 3)]
       = .error (.fieldTooLong "title" 60 61)) ∧
    -- two_columns_with_grid: title 40
    ((validateFields ContentPy.TwoColumnsWithGridContent
       [("title", .str (xChars 40)), ("items", demoListItems 4)]).isOk = true ∧
     validateFields ContentPy.TwoColumnsWithGridContent
       [("title", .str (xChars 41)), ("items", demoListItems 4)]
       = .error (.fieldTooLong "title" 40 41)) ∧
    -- horizontal_4_column_list: title 60
    ((validateFields ContentPy.Horizontal4ColumnListContent
       [("title", .str (xChars 60)), ("items", demoListItems 4)]).isOk = true ∧
     validateFields ContentPy.Horizontal4ColumnListContent
       [("title", .str (xChars 61)), ("items", demoListItems 4)]
       = .error (.fieldTooLong "title" 60 61)) ∧
    -- image_with_description_2: title 60; nested ImageItem alt 100
    ((validateFields ContentPy.ImageWithDescription2Content
       [("title", .str (xChars 60)), ("images", demoImageItems 2),
        ("items", demoListItems 2)]).isOk = true ∧
     validateFields ContentPy.ImageWithDescription2Content
       [("title", .str (xChars 61)), ("images", demoImageItems 2),
        ("items", demoListItems 2)]
       = .error (.fieldTooLong "title" 60 61) ∧
     (validateFields ContentPy.ImageWithDescription2Content
       [("title", .str "T"),
        ("images", .list [.obj [("url", .str "u"), ("alt", .str (xChars 100))],
                          demoImageItem]),
        ("items", demoListItems 2)]).isOk = true ∧
     validateFields ContentPy.ImageWithDescription2Content
       [("title", .str "T"),
        ("images", .list [.obj [("url", .str "u"), ("alt", .str (xChars 101))],
                          demoImageItem]),
        ("items", demoListItems 2)]
       = .error (.fieldTooLong "alt" 100 101)) ∧
    -- image_with_description_3: title 60
    ((validateFields ContentPy.ImageWithDescription3Content
       [("title", .str (xChars 60)), ("images", demoImageItems 3),
        ("items", demoListItems 3)]).isOk = true ∧
     validateFields ContentPy.ImageWithDescription3Content
       [("title", .str (xChars 61)), ("images", demoImageItems 3),
        ("items", demoListItems 3)]
       = .error (.fieldTooLong "title" 60 61)) ∧
    -- three_column_metrics: title 60; nested value 20, description 150
    ((validateFields ContentPy.ThreeColumnMetricsContent
       [("title", .str (xChars 60)), ("metrics", demoMetricDescrs 3)]).isOk = true ∧
     validateFields ContentPy.ThreeColumnMetricsContent
       [("title", .str (xChars 61)), ("metrics", demoMetricDescrs 3)]
       = .error (.fieldTooLong "title" 60 61) ∧
     (validateFields ContentPy.ThreeColumnMetricsContent
       [("title", .str "T"),
        ("metrics", .list [.obj [("value", .str (xChars 20)),
                                 ("description", .str (xChars 150))],
                           demoMetricDescr, demoMetricDescr])]).isOk = true ∧
     validateFields ContentPy.ThreeColumnMetricsContent
       [("title", .str "T"),
        ("metrics", .list [.obj [("value", .str (xChars 21)), ("description", .str "d")],
                           demoMetricDescr, demoMetricDescr])]
       = .error (.fieldTooLong "value" 20 21) ∧
     validateFields ContentPy.ThreeColumnMetricsContent
       [("title", .str "T"),
        ("metrics", .list [.obj [("value", .str "v"), ("description", .str (xChars 151))],
                           demoMetricDescr, demoMetricDescr])]
       = .error (.fieldTooLong "description" 150 151)) ∧
    -- metrics_grid: title 40, description 200; nested value 20, label 50
    ((validateFields ContentPy.MetricsGridContent
       [("title", .str (xChars 40)), ("description", .str (xChars 200)),
        ("metrics", demoMetricValues 4)]).isOk = true ∧
     validateFields ContentPy.MetricsGridContent
       [("title", .str (xChars 41)), ("description", .str "D"),
        ("metrics", demoMetricValues 4)]
       = .error (.fieldTooLong "title" 40 41) ∧
     validateFields ContentPy.MetricsGridContent
       [("title", .str "T"), ("description", .str (xChars 201)),
        ("metrics", demoMetricValues 4)]
       = .error (.fieldTooLong "description" 200 201) ∧
     validateFields ContentPy.MetricsGridContent
       [("title", .str "T"), ("description", .str "D"),
        ("metrics", .list [.obj [("value", .str (xChars 21)), ("label", .str "m")],
                           demoMetricValue, demoMetricValue, demoMetricValue])]
       = .error (.fieldTooLong "value" 20 21) ∧
     validateFields ContentPy.MetricsGridContent
       [("title", .str "T"), ("description", .str "D"),
        ("metrics", .list [.obj [("value", .str "v"), ("label", .str (xChars 51))],
                           demoMetricValue, demoMetricValue, demoMetricValue])]
       = .error (.fieldTooLong "label" 50 51)) ∧
    -- quote: quote 200, author 80
    ((validateFields ContentPy.QuoteContent
       [("quote", .str (xChars 200)), ("author", .str (xChars 80))]).isOk = true ∧
     validateFields ContentPy.QuoteContent
       [("quote", .str (xChars 201)), ("author", .str "a")]
       = .error (.fieldTooLong "quote" 200 201) ∧
     validateFields ContentPy.QuoteContent
       [("quote", .str "q"), ("author", .str (xChars 81))]
       = .error (.fieldTooLong "author" 80 81)) :=
  ⟨render_eval rfl ht, ⟨rfl, rfl, rfl⟩, ⟨rfl, rfl⟩, ⟨rfl, rfl⟩, ⟨rfl, rfl, rfl, rfl⟩,
   ⟨rfl, rfl, rfl⟩, ⟨rfl, rfl, rfl, rfl, rfl⟩, ⟨rfl, rfl⟩, ⟨rfl, rfl⟩, ⟨rfl, rfl⟩,
   ⟨rfl, rfl⟩, ⟨rfl, rfl, rfl, rfl⟩, ⟨rfl, rfl⟩, ⟨rfl, rfl, rfl, rfl, rfl⟩,
   ⟨rfl, rfl, rfl, rfl, rfl⟩, ⟨rfl, rfl, rfl⟩⟩

/-- Witness for C2 at the concrete demo renderer. -/
theorem claim_C2_witness :
    demoRenderer.render "title_slide"
      [("title", .str "My Presentation"), ("subtitle", .str "Intro")] true
      = .ok (demoTemplate
          [("title", .str "My Presentation"), ("subtitle", .str "Intro")]) :=
  (claim_C2_text_length_bounds demoRenderer demoTemplate rfl).1

/-- A `two_column_list` content mapping with a 45-character top-level
title (and the `type` discriminator the Phase-2 models require). -/
def twoColumnProbe : List (String × Value) :=
  [("type", .str "two_column_list"), ("title", .str (xChars 45)),
   ("items", demoListItems 2)]

/-- C9.  The two near-duplicate `TwoColumnListContent` definitions are
not equivalent: the renderer package caps `title` at 40 characters while
the generation package caps it at 60, so a mapping with a 45-character
title is rejected by the former with a field-too-long error and accepted
by the latter. -/
theorem claim_C9_two_column_list_divergence :
    validateFields ContentPy.TwoColumnListContent twoColumnProbe
      = .error (.fieldTooLong "title" 40 45) ∧
    (validateFields ModelsPy.TwoColumnListContent twoColumnProbe).isOk = true ∧
    (SlideRenderer.validate_content "two_column_list" twoColumnProbe).isOk = false :=
  ⟨rfl, rfl, rfl⟩

/-- A parsed Phase-1 collaborator output with two outline entries, both
well-formed; written in normalised field order. -/
def overLongPlan : List (String × Value) :=
  [("title", .str "Plan"), ("total_slides", .int 2),
   ("slides", .list
     [.obj [("slide_number", .int 1), ("type", .str "title_slide"),
            ("purpose", .str "p"), ("key_points", .str "k")],
      .obj [("slide_number", .int 2), ("type", .str "quote"),
            ("purpose", .str "p"), ("key_points", .str "k")]])]

/-- Number of outline entries in a validated plan. -/
def planSlideCount (res : Except ValErr (List (String × Value))) : Option Nat :=
  match res with
  | .ok fields =>
    match fields.lookup "slides" with
    | some (.list entries) => some entries.length
    | _ => none
  | .error _ => none

/-- C7, counterexample.  The Phase-1 validation accepts a collaborator
output with 2 outline entries when the caller requested
`max_slides = 1`: `PresentationPlan` declares no bound on `slides`, so
an output exceeding the requested maximum is not rejected. -/
theorem claim_C7_counterexample :
    (phase1_plan_validate 1 overLongPlan).isOk = true ∧
    planSlideCount (phase1_plan_validate 1 overLongPlan) = some 2 :=
  ⟨rfl, rfl⟩

/-- The per-slide transformation never adds, removes or reorders dict
keys; it only rewrites values. -/
theorem convertSlide_keys (fm : List (String × String)) (slide : List (String × Value)) :
    (convertSlide fm slide).map Prod.fst = slide.map Prod.fst := by
  induction slide with
  | nil => rfl
  | cons kv rest _ => simp [convertSlide]

/-- C10.  `convert_figure_ids_to_urls` leaves its input untouched (the
source deep-copies `slides` before mutating) and returns the
per-slide substitution applied to a copy, preserving each slide's keys;
concretely, a figure-id `image_url` is rewritten to its mapped URL and
a figure id inside a `description` becomes `"(see figure)"`, while
unrelated fields are byte-identical. -/
theorem claim_C10_no_input_mutation (slides : List (List (String × Value)))
    (figure_map : List (String × String)) :
    (convert_figure_ids_to_urls slides figure_map).1 = slides ∧
    (convert_figure_ids_to_urls slides figure_map).2
      = slides.map (convertSlide figure_map) ∧
    (slides.map fun s => (convertSlide figure_map s).map Prod.fst)
      = (slides.map fun s => s.map Prod.fst) ∧
    convertSlide [("S3.F1", "http://img/1.png")]
      [("image_url", .str "S3.F1"), ("extra", .str "S3.F1")]
      = [("image_url", .str "http://img/1.png"), ("extra", .str "S3.F1")] ∧
    convertSlide [("S3.F1", "http://img/1.png")]
      [("description", .str "See S3.F1 here"), ("speaker", .str "untouched")]
      = [("description", .str "See (see figure) here"), ("speaker", .str "untouched")] :=
  ⟨rfl, rfl,
   congrArg slides.map (funext fun s => convertSlide_keys figure_map s), rfl, rfl⟩

/-- The successful payload of a task outcome, if any: exceptions
captured by `gather` and `None` returns are both dropped. -/
def okContent : TaskOutcome → Option (List (String × Value))
  | .ok c => some c
  | .failed => none
  | .fault _ => none

/-- The collection loop keeps exactly the successful payloads, in
order. -/
theorem collectSuccessful_eq_filterMap (outcomes : List TaskOutcome) :
    collectSuccessful outcomes = outcomes.filterMap okContent := by
  induction outcomes with
  | nil => rfl
  | cons o rest ih => cases o <;> simp [collectSuccessful, okContent, ih]

/-- C6.  The orchestrator returns exactly the successful contents in the
relative order of their outline positions: faulting tasks and tasks
returning `null` are dropped, nothing propagates as an error, failing
entries in a suffix never shift earlier survivors, and with 5 entries
whose second and fourth fail the result is the contents of entries
1, 3, 5 in that order. -/
theorem claim_C6_orchestrator_order (runTask : OutlineEntry → TaskOutcome)
    (planSlides : List OutlineEntry) :
    phase2_generate_all_slides runTask planSlides
      = planSlides.filterMap (fun o => okContent (runTask o)) ∧
    (∀ pre post, (∀ o ∈ post, okContent (runTask o) = none) →
       phase2_generate_all_slides runTask (pre ++ post)
         = phase2_generate_all_slides runTask pre) ∧
    (∀ o1 o2 o3 o4 o5 c1 c3 c5,
       runTask o1 = .ok c1 → okContent (runTask o2) = none →
       runTask o3 = .ok c3 → okContent (runTask o4) = none →
       runTask o5 = .ok c5 →
       phase2_generate_all_slides runTask [o1, o2, o3, o4, o5] = [c1, c3, c5]) := by
  have hall : ∀ l : List OutlineEntry, phase2_generate_all_slides runTask l
      = l.filterMap (fun o => okContent (runTask o)) := by
    intro l
    simp [phase2_generate_all_slides, collectSuccessful_eq_filterMap, List.filterMap_map]
    rfl
  refine ⟨hall planSlides, ?_, ?_⟩
  · intro pre post hpost
    rw [hall, hall, List.filterMap_append, List.filterMap_eq_nil_iff.mpr hpost,
      List.append_nil]
  · intro o1 o2 o3 o4 o5 c1 c3 c5 h1 h2 h3 h4 h5
    rw [hall]
    simp [List.filterMap_cons, h1, h2, h3, h4, h5]
    simp [okContent]

/-- A concrete plan entry and task function exercising C6. -/
def demoOutline (n : Int) : OutlineEntry := ⟨n, "quote", "p", "k"⟩

/-- A task function for which entries 2 and 4 fail (one by fault, one by
returning `null`) and the rest succeed. -/
def demoRunTask (o : OutlineEntry) : TaskOutcome :=
  if o.slide_number = 2 then .fault "boom"
  else if o.slide_number = 4 then .failed
  else .ok [("quote", .str (toString o.slide_number))]

/-- Witness for C6: five entries with entries 2 and 4 failing yield the
contents of entries 1, 3, 5 in order. -/
theorem claim_C6_witness :
    phase2_generate_all_slides demoRunTask
      [demoOutline 1, demoOutline 2, demoOutline 3, demoOutline 4, demoOutline 5]
      = [[("quote", .str "1")], [("quote", .str "3")], [("quote", .str "5")]] :=
  (claim_C6_orchestrator_order demoRunTask
    [demoOutline 1, demoOutline 2, demoOutline 3, demoOutline 4, demoOutline 5]).2.2
    (demoOutline 1) (demoOutline 2) (demoOutline 3) (demoOutline 4) (demoOutline 5)
    _ _ _ rfl rfl rfl rfl rfl

/-- A slide record is valid for the renderer when its per-slide body
succeeds; the index only ever appears in error messages, so success is
stated at index 0. -/
def rendersOk (r : SlideRenderer) (validate : Bool) (s : SlideData) : Prop :=
  ∃ frag, renderInner r validate 0 s = .ok frag

/-- A successful per-slide render does not depend on the entry's index. -/
theorem renderInner_ok_irrel {r : SlideRenderer} {v : Bool} {s : SlideData}
    {frag : String} {i j : Nat} (h : renderInner r v i s = .ok frag) :
    renderInner r v j s = .ok frag := by
  cases hs : s.type? with
  | none => simp [renderInner, hs] at h
  | some t =>
    by_cases ht : t = "" <;> simp [renderInner, hs, ht] at h ⊢
    exact h

/-- If every entry is valid, the loop produces one fragment per entry,
independent of the starting index. -/
theorem renderSlides_all_ok {r : SlideRenderer} {v : Bool} (slides : List SlideData)
    (h : ∀ s ∈ slides, rendersOk r v s) (i : Nat) :
    ∃ frags, frags.length = slides.length ∧ renderSlides r v i slides = .ok frags := by
  induction slides generalizing i with
  | nil => exact ⟨[], rfl, rfl⟩
  | cons s rest ih =>
    obtain ⟨frag, hf⟩ := h s (List.mem_cons_self s rest)
    obtain ⟨frags, hlen, hr⟩ := ih (fun x hx => h x (List.mem_cons_of_mem s hx)) (i + 1)
    refine ⟨frag :: frags, by simp [hlen], ?_⟩
    simp [renderSlides, renderInner_ok_irrel hf, hr]

/-- C3.  Rendering K ≥ 1 valid slide records with validation enabled
yields one document: the fixed front-matter (when requested) followed by
exactly K fragments joined by the fixed separator — one separator
between each adjacent pair, none before the first or after the last. -/
theorem claim_C3_assembled_document (r : SlideRenderer) (slides : List SlideData)
    (hK : slides ≠ []) (h : ∀ s ∈ slides, rendersOk r true s) :
    ∃ frags, frags.length = slides.length ∧
      r.render_presentation slides true true
        = .ok (frontmatter ++ String.intercalate slideSeparator frags) ∧
      r.render_presentation slides true false
        = .ok (String.intercalate slideSeparator frags) := by
  obtain ⟨frags, hlen, hr⟩ := renderSlides_all_ok slides h 0
  exact ⟨frags, hlen, by simp [SlideRenderer.render_presentation, hr],
    by simp [SlideRenderer.render_presentation, hr]⟩

/-- A valid slide record for the demo renderer. -/
def demoSlideA : SlideData :=
  ⟨some "title_slide", [("title", .str "A"), ("subtitle", .str "B")]⟩

/-- Witness for C3 with a concrete two-slide batch. -/
theorem claim_C3_witness :
    ∃ frags : List String, frags.length = 2 ∧
      demoRenderer.render_presentation [demoSlideA, demoSlideA] true true
        = .ok (frontmatter ++ String.intercalate slideSeparator frags) ∧
      demoRenderer.render_presentation [demoSlideA, demoSlideA] true false
        = .ok (String.intercalate slideSeparator frags) :=
  claim_C3_assembled_document demoRenderer [demoSlideA, demoSlideA]
    (by simp)
    (by intro s hs
        simp at hs
        subst hs
        exact ⟨_, rfl⟩)

/-- If the first `pre.length` entries are valid and the next entry fails,
the whole batch fails with the message identifying the 0-based index and
the tag of that first failing entry — whatever entries follow it (they
are never rendered). -/
theorem renderSlides_first_failure {r : SlideRenderer} {v : Bool}
    (pre : List SlideData) {bad : SlideData} (rest : List SlideData) {e : String}
    (i : Nat) (hpre : ∀ s ∈ pre, rendersOk r v s)
    (hbad : renderInner r v (i + pre.length) bad = .error e) :
    renderSlides r v i (pre ++ bad :: rest)
      = .error (slideErrorMsg (i + pre.length) (tagShow bad.type?) e) := by
  induction pre generalizing i with
  | nil =>
    simp only [List.length_nil, Nat.add_zero] at hbad
    simp [renderSlides, hbad]
  | cons s ps ih =>
    obtain ⟨frag, hf⟩ := hpre s (List.mem_cons_self s ps)
    have hstep := ih (fun x hx => hpre x (List.mem_cons_of_mem s hx)) (i := i + 1)
      (by simpa [Nat.add_comm, Nat.add_assoc, Nat.add_left_comm] using hbad)
    simp only [List.cons_append, renderSlides, renderInner_ok_irrel hf, List.append_eq]
    rw [hstep]
    have : i + 1 + ps.length = i + (ps.length + 1) := by omega
    simp [this]

/-- C4.  On the first failing entry (unknown tag, missing type, failed
validation, or missing template), `render_presentation` raises an error
carrying the 0-based index and tag of that entry and returns no partial
document; the entries after the failing one are irrelevant (never
rendered). -/
theorem claim_C4_batch_failure_context (r : SlideRenderer)
    (pre : List SlideData) (bad : SlideData) (rest : List SlideData) (e : String)
    (fm : Bool) (hpre : ∀ s ∈ pre, rendersOk r true s)
    (hbad : renderInner r true pre.length bad = .error e) :
    r.render_presentation (pre ++ bad :: rest) true fm
      = .error (slideErrorMsg pre.length (tagShow bad.type?) e) := by
  have := renderSlides_first_failure pre rest (i := 0) hpre
    (by simpa using hbad)
  simp only [Nat.zero_add] at this
  simp [SlideRenderer.render_presentation, this]

/-- A slide record with an unknown tag. -/
def demoBadSlide : SlideData := ⟨some "bogus", []⟩

/-- Witness for C4: in a three-entry batch whose middle entry has an
unknown tag, the error identifies index 1 and tag `bogus`. -/
theorem claim_C4_witness :
    demoRenderer.render_presentation [demoSlideA, demoBadSlide, demoSlideA] true true
      = .error (slideErrorMsg 1 (tagShow (some "bogus"))
          "Invalid slide type: bogus") :=
  claim_C4_batch_failure_context demoRenderer [demoSlideA] demoBadSlide [demoSlideA]
    "Invalid slide type: bogus" true
    (by intro s hs
        simp at hs
        subst hs
        exact ⟨_, rfl⟩)
    rfl

/-- `fb` occurs verbatim inside `m`. -/
def includedIn (fb m : String) : Prop := ∃ a b, m = a ++ (fb ++ b)

/-- The retry prompt contains the previous attempt's error text verbatim. -/
theorem includedIn_retryPrompt (p fb : String) : includedIn fb (retryPrompt p fb) := by
  refine ⟨p ++ "\n\n**VALIDATION FEEDBACK FROM PREVIOUS ATTEMPT**:\n" ++
    "The previous generation failed validation with the following error:\n",
    "\n\n**CRITICAL**: Fix the above validation errors. Pay special attention to:\n" ++
      "- Character limits (must be STRICTLY followed)\n" ++
      "- List length constraints (min/max items)\n" ++
      "- Required fields (all must be present)\n" ++
      "- Field types (strings, numbers, lists)\n\n" ++
      "Regenerate the slide with ALL validation errors fixed.\n", ?_⟩
  simp [retryPrompt, String.append_assoc]

/-- On a retry, the user message of the next attempt contains the
previous validation feedback verbatim (trivially so when the feedback
text is empty, in which case the source falls back to the plain
prompt). -/
theorem buildMessages_user_feedback (sysMsg prompt fb : String) (attempt : Nat)
    (hatt : 0 < attempt) :
    ∀ m ∈ buildMessages sysMsg prompt (some fb) attempt,
      m.role = "user" → includedIn fb m.content := by
  intro m hm hrole
  by_cases hfb : fb = ""
  · subst hfb
    simp [buildMessages] at hm
    rcases hm with rfl | rfl
    · simp at hrole
    · exact ⟨prompt, "", by simp⟩
  · simp [buildMessages, hfb, hatt] at hm
    rcases hm with rfl | rfl
    · simp at hrole
    · exact includedIn_retryPrompt prompt fb

/-- C5.  With `max_retries = 2` and a collaborator whose output always
fails parsing or schema validation, the generator makes exactly 3
sequential attempts — each retry's instruction context embedding the
previous attempt's validation error text — and then returns `null`
rather than raising. -/
theorem claim_C5_retry_exhaustion
    (chat : List ChatMsg → Except String (List (String × Value)))
    (model : List FieldSpec) (sysMsg prompt : String)
    (hfail : ∀ msgs, ∃ e, attemptOutcome chat model msgs = .error e) :
    (phase2_generate_slide chat model sysMsg prompt 2).1 = none ∧
    (phase2_generate_slide chat model sysMsg prompt 2).2.length = 3 ∧
    ∃ e0 e1,
      attemptOutcome chat model (buildMessages sysMsg prompt none 0) = .error e0 ∧
      attemptOutcome chat model (buildMessages sysMsg prompt (some e0) 1) = .error e1 ∧
      (phase2_generate_slide chat model sysMsg prompt 2).2
        = [buildMessages sysMsg prompt none 0,
           buildMessages sysMsg prompt (some e0) 1,
           buildMessages sysMsg prompt (some e1) 2] ∧
      (∀ m ∈ buildMessages sysMsg prompt (some e0) 1,
         m.role = "user" → includedIn e0 m.content) ∧
      (∀ m ∈ buildMessages sysMsg prompt (some e1) 2,
         m.role = "user" → includedIn e1 m.content) := by
  obtain ⟨e0, h0⟩ := hfail (buildMessages sysMsg prompt none 0)
  obtain ⟨e1, h1⟩ := hfail (buildMessages sysMsg prompt (some e0) 1)
  obtain ⟨e2, h2⟩ := hfail (buildMessages sysMsg prompt (some e1) 2)
  have hrun : phase2_generate_slide chat model sysMsg prompt 2
      = (none, [buildMessages sysMsg prompt none 0,
                buildMessages sysMsg prompt (some e0) 1,
                buildMessages sysMsg prompt (some e1) 2]) := by
    simp [phase2_generate_slide, genAttempts, h0, h1, h2]
  refine ⟨by rw [hrun], by rw [hrun]; rfl, e0, e1, h0, h1, by rw [hrun],
    buildMessages_user_feedback sysMsg prompt e0 1 (by omega),
    buildMessages_user_feedback sysMsg prompt e1 2 (by omega)⟩

/-- A collaborator that always fails. -/
def alwaysFailChat : List ChatMsg → Except String (List (String × Value)) :=
  fun _ => .error "boom"

/-- Witness for C5 at a concrete always-failing collaborator: three
attempts are made and the result is `null`. -/
theorem claim_C5_witness :
    (phase2_generate_slide alwaysFailChat ModelsPy.QuoteContent "sys" "gen" 2).1
        = none ∧
    (phase2_generate_slide alwaysFailChat ModelsPy.QuoteContent "sys" "gen" 2).2.length
        = 3 :=
  ⟨(claim_C5_retry_exhaustion alwaysFailChat ModelsPy.QuoteContent "sys" "gen"
      (fun msgs => ⟨"boom", rfl⟩)).1,
   (claim_C5_retry_exhaustion alwaysFailChat ModelsPy.QuoteContent "sys" "gen"
      (fun msgs => ⟨"boom", rfl⟩)).2.1⟩

/-- Looking up a key absent from a mapping yields nothing. -/
theorem lookup_eq_none_of_keys_ne {β : Type} (l : List (String × β)) (n : String)
    (h : ∀ p ∈ l, p.1 ≠ n) : l.lookup n = none := by
  induction l with
  | nil => rfl
  | cons p ps ih =>
    cases p with
    | mk k v =>
      have hp : (n == k) = false :=
        beq_eq_false_iff_ne.mpr (Ne.symm (h (k, v) (List.mem_cons_self _ ps)))
      simp [List.lookup, hp]
      intro a b hab heq
      exact h (a, b) (List.mem_cons_of_mem _ hab) heq.symm

/-- Appending entries whose keys differ from `n` does not change the
lookup of `n`. -/
theorem lookup_append_of_no_key {β : Type} (l1 l2 : List (String × β)) (n : String)
    (h : ∀ p ∈ l2, p.1 ≠ n) : (l1 ++ l2).lookup n = l1.lookup n := by
  induction l1 with
  | nil => simpa using lookup_eq_none_of_keys_ne l2 n h
  | cons p ps ih =>
    cases p with
    | mk k v => by_cases hk : (n == k) <;> simp [List.lookup, hk, ih]

/-- Validation reads only the declared fields: two mappings that agree
on every declared field name validate identically. -/
theorem validateFields_lookup_congr {spec : List FieldSpec}
    {c1 c2 : List (String × Value)}
    (h : ∀ f ∈ spec, c2.lookup f.name = c1.lookup f.name) :
    validateFields spec c2 = validateFields spec c1 := by
  induction spec with
  | nil => rfl
  | cons f rest ih =>
    have hf := h f (List.mem_cons_self f rest)
    have hrest := ih fun g hg => h g (List.mem_cons_of_mem f hg)
    simp [validateFields, hf, hrest]

/-- A successful validation emits exactly the declared field names, in
declaration order. -/
theorem validateFields_ok_names {spec : List FieldSpec}
    {content norm : List (String × Value)}
    (h : validateFields spec content = .ok norm) :
    norm.map Prod.fst = spec.map FieldSpec.name := by
  induction spec generalizing norm with
  | nil =>
    simp [validateFields] at h
    subst h
    rfl
  | cons f rest ih =>
    simp only [validateFields] at h
    cases hl : content.lookup f.name with
    | none => simp [hl] at h
    | some v =>
      simp only [hl] at h
      cases hc : checkField f.name f.kind v with
      | error e => simp [hc] at h
      | ok v2 =>
        simp only [hc] at h
        cases hr : validateFields rest content with
        | error e => simp [hr] at h
        | ok tail =>
          simp only [hr] at h
          simp at h
          subst h
          simp [ih hr]

/-- C8.  A mapping that satisfies a tag's schema on the declared fields
still validates when extra, undeclared fields are present, with the same
normalised result, and that result carries exactly the schema's fields
in the schema's declaration order — extra fields are dropped silently. -/
theorem claim_C8_extra_fields_ignored (tag : String) (model : List FieldSpec)
    (content extras norm : List (String × Value))
    (hm : ContentPy.get_content_model tag = .ok model)
    (hok : SlideRenderer.validate_content tag content = .ok norm)
    (hextras : ∀ p ∈ extras, ∀ f ∈ model, p.1 ≠ f.name) :
    SlideRenderer.validate_content tag (content ++ extras) = .ok norm ∧
    norm.map Prod.fst = model.map FieldSpec.name := by
  have hcore : validateFields model content = .ok norm := by
    simp only [SlideRenderer.validate_content, hm] at hok
    cases hv : validateFields model content with
    | error e => simp [hv] at hok
    | ok v =>
      simp only [hv] at hok
      simp at hok
      rw [hok]
  have hagree : ∀ f ∈ model, (content ++ extras).lookup f.name = content.lookup f.name :=
    fun f hf => lookup_append_of_no_key _ _ _ fun p hp => hextras p hp f hf
  have hsame : validateFields model (content ++ extras) = validateFields model content :=
    validateFields_lookup_congr hagree
  refine ⟨?_, validateFields_ok_names hcore⟩
  simp only [SlideRenderer.validate_content, hm, hsame, hcore]

/-- Witness for C8: `title_slide` content with an undeclared `speaker`
field validates and the extra field is dropped. -/
theorem claim_C8_witness :
    SlideRenderer.validate_content "title_slide"
      ([("title", .str "A"), ("subtitle", .str "B")] ++ [("speaker", .str "S")])
      = .ok [("title", .str "A"), ("subtitle", .str "B")] ∧
    [("title", Value.str "A"), ("subtitle", Value.str "B")].map Prod.fst
      = ContentPy.TitleSlideContent.map FieldSpec.name :=
  claim_C8_extra_fields_ignored "title_slide" ContentPy.TitleSlideContent
    [("title", .str "A"), ("subtitle", .str "B")] [("speaker", .str "S")]
    [("title", .str "A"), ("subtitle", .str "B")] rfl rfl
    (by intro p hp f hf
        simp at hp
        subst hp
        simp [ContentPy.TitleSlideContent] at hf
        rcases hf with rfl | rfl <;> decide)

/-- A value accepted by an enum-typed field is a string among the
allowed tags. -/
theorem checkLeaf_enum_ok {n : String} {allowed : List String} {v v2 : Value}
    (h : checkLeaf n (.enumTag allowed) v = .ok v2) :
    ∃ s, v2 = .str s ∧ allowed.contains s = true := by
  cases v with
  | str s =>
    by_cases hc : s ∈ allowed
    · simp [checkLeaf, hc] at h
      exact ⟨s, h.symm, by simpa using hc⟩
    · simp [checkLeaf, hc] at h
  | int k => simp [checkLeaf] at h
  | list l => simp [checkLeaf] at h
  | obj o => simp [checkLeaf] at h

/-- Every entry of a successfully validated nested object was produced
by the scalar check of some declared field. -/
theorem validateLeafFields_ok_mem {spec : List LeafSpec}
    {content norm : List (String × Value)}
    (h : validateLeafFields spec content = .ok norm) :
    ∀ q ∈ norm, ∃ ls ∈ spec, q.1 = ls.name ∧
      ∃ v, content.lookup ls.name = some v ∧ checkLeaf ls.name ls.kind v = .ok q.2 := by
  induction spec generalizing norm with
  | nil =>
    simp [validateLeafFields] at h
    subst h
    simp
  | cons f rest ih =>
    simp only [validateLeafFields] at h
    cases hl : content.lookup f.name with
    | none => simp [hl] at h
    | some v =>
      simp only [hl] at h
      cases hc : checkLeaf f.name f.kind v with
      | error e => simp [hc] at h
      | ok v2 =>
        simp only [hc] at h
        cases hr : validateLeafFields rest content with
        | error e => simp [hr] at h
        | ok tail =>
          simp only [hr] at h
          simp at h
          subst h
          intro q hq
          rcases List.mem_cons.mp hq with rfl | hq2
          · exact ⟨f, List.mem_cons_self f rest, rfl, v, hl, hc⟩
          · obtain ⟨ls, hls, hname, v2, hv2, hcl⟩ := ih hr q hq2
            exact ⟨ls, List.mem_cons_of_mem f hls, hname, v2, hv2, hcl⟩

/-- Similarly for a successfully validated top-level mapping. -/
theorem validateFields_ok_mem {spec : List FieldSpec}
    {content norm : List (String × Value)}
    (h : validateFields spec content = .ok norm) :
    ∀ q ∈ norm, ∃ f ∈ spec, q.1 = f.name ∧
      ∃ v, content.lookup f.name = some v ∧ checkField f.name f.kind v = .ok q.2 := by
  induction spec generalizing norm with
  | nil =>
    simp [validateFields] at h
    subst h
    simp
  | cons f rest ih =>
    simp only [validateFields] at h
    cases hl : content.lookup f.name with
    | none => simp [hl] at h
    | some v =>
      simp only [hl] at h
      cases hc : checkField f.name f.kind v with
      | error e => simp [hc] at h
      | ok v2 =>
        simp only [hc] at h
        cases hr : validateFields rest content with
        | error e => simp [hr] at h
        | ok tail =>
          simp only [hr] at h
          simp at h
          subst h
          intro q hq
          rcases List.mem_cons.mp hq with rfl | hq2
          · exact ⟨f, List.mem_cons_self f rest, rfl, v, hl, hc⟩
          · obtain ⟨g, hg, hname, v2, hv2, hcf⟩ := ih hr q hq2
            exact ⟨g, List.mem_cons_of_mem f hg, hname, v2, hv2, hcf⟩

/-- A value accepted by a list field is a list whose items passed the
nested component validation. -/
theorem checkField_listOf_ok {n : String} {ispec : List LeafSpec}
    {mi ma : Option Nat} {v v2 : Value}
    (h : checkField n (.listOf ispec mi ma) v = .ok v2) :
    ∃ items norms, v = .list items ∧ v2 = .list norms ∧
      checkItems n ispec items = .ok norms := by
  cases v with
  | list items =>
    simp only [checkField] at h
    cases hb : withinBounds mi ma items.length with
    | false => simp [hb] at h
    | true =>
      simp only [hb, if_true] at h
      cases hi : checkItems n ispec items with
      | error e => simp [hi] at h
      | ok norms =>
        simp only [hi] at h
        simp at h
        exact ⟨items, norms, rfl, h.symm, hi⟩
  | str s => simp [checkField] at h
  | int k => simp [checkField] at h
  | obj o => simp [checkField] at h

/-- Every item of a successfully validated list field is a normalised
object that passed the nested component validation. -/
theorem checkItems_ok_mem {n : String} {ispec : List LeafSpec}
    {items norms : List Value} (h : checkItems n ispec items = .ok norms) :
    ∀ e ∈ norms, ∃ nf, e = .obj nf ∧
      ∃ fields, validateLeafFields ispec fields = .ok nf := by
  induction items generalizing norms with
  | nil =>
    simp [checkItems] at h
    subst h
    simp
  | cons it rest ih =>
    cases it with
    | obj fields =>
      simp only [checkItems] at h
      cases hv : validateLeafFields ispec fields with
      | error e => simp [hv] at h
      | ok nf =>
        simp only [hv] at h
        cases hr : checkItems n ispec rest with
        | error e => simp [hr] at h
        | ok tail =>
          simp only [hr] at h
          simp at h
          subst h
          intro e he
          rcases List.mem_cons.mp he with rfl | he2
          · exact ⟨nf, rfl, fields, hv⟩
          · exact ih hr e he2
    | str s => simp [checkItems] at h
    | int k => simp [checkItems] at h
    | list l => simp [checkItems] at h

/-- C7, amended.  Phase-1 validation rejects unparseable outputs and
outputs whose entries use unknown tags (every accepted plan's outline
entries carry one of the 14 known tags, and a concrete plan with tag
`bogus` is rejected as a domain error), but the `max_slides` bound is
requested only in the prompt and not enforced: a plan exceeding the
requested maximum is accepted. -/
theorem claim_C7_plan_validation (max_slides : Nat)
    (plan_data norm : List (String × Value))
    (h : phase1_plan_validate max_slides plan_data = .ok norm) :
    (∀ q ∈ norm, q.1 = "slides" → ∃ entries, q.2 = .list entries ∧
       ∀ e ∈ entries, ∃ nf, e = .obj nf ∧
         ∀ p ∈ nf, p.1 = "type" → ∃ t, p.2 = .str t ∧
           ModelsPy.slideTypeValues.contains t = true) ∧
    phase1_plan_validate 10
      [("title", .str "Plan"), ("total_slides", .int 1),
       ("slides", .list [.obj [("slide_number", .int 1), ("type", .str "bogus"),
                               ("purpose", .str "p"), ("key_points", .str "k")]])]
      = .error (.typeMismatch "type") ∧
    (phase1_plan_validate 1 overLongPlan).isOk = true ∧
    planSlideCount (phase1_plan_validate 1 overLongPlan) = some 2 := by
  refine ⟨?_, rfl, rfl, rfl⟩
  intro q hq hname
  have h' : validateFields ModelsPy.PresentationPlanSpec plan_data = .ok norm := h
  obtain ⟨f, hf, hqname, v, hv, hcf⟩ := validateFields_ok_mem h' q hq
  rw [hname] at hqname
  simp [ModelsPy.PresentationPlanSpec] at hf
  rcases hf with rfl | rfl | rfl
  · exact absurd hqname (by decide)
  · exact absurd hqname (by decide)
  · obtain ⟨items, norms, hvl, hq2, hci⟩ := checkField_listOf_ok hcf
    refine ⟨norms, hq2, ?_⟩
    intro e he
    obtain ⟨nf, he2, fields, hvn⟩ := checkItems_ok_mem hci e he
    refine ⟨nf, he2, ?_⟩
    intro p hp hpname
    obtain ⟨ls, hls, hpn, v2, hv2, hcl⟩ := validateLeafFields_ok_mem hvn p hp
    rw [hpname] at hpn
    simp [ModelsPy.SlideOutlineSpec] at hls
    rcases hls with rfl | rfl | rfl | rfl
    · exact absurd hpn (by decide)
    · obtain ⟨t, ht, htc⟩ := checkLeaf_enum_ok hcl
      exact ⟨t, ht ▸ rfl, htc⟩
    · exact absurd hpn (by decide)
    · exact absurd hpn (by decide)

/-- Witness for C7's amended theorem at the concrete two-entry plan. -/
theorem claim_C7_witness :
    (phase1_plan_validate 1 overLongPlan).isOk = true ∧
    planSlideCount (phase1_plan_validate 1 overLongPlan) = some 2 :=
  ⟨(claim_C7_plan_validation 1 overLongPlan overLongPlan rfl).2.2.1,
   (claim_C7_plan_validation 1 overLongPlan overLongPlan rfl).2.2.2⟩
